import Mathlib

/-!
Shallow embedding of the airweave sync-context assembly subsystem:

* the integration auth-settings catalog
  (`src/backend/airweave/platform/auth/settings.py`),
* the resource locator (`src/backend/airweave/platform/locator.py`),
* the sync-context factory (`src/backend/app/platform/sync/context.py`),
* the DAG schemas (`src/backend/app/schemas/dag.py`).

Collaborators that are outside src (the CRUD layer, the decryption helper, the
OAuth refresh service, the pydantic schema classes) are modelled as parameters
of an `Env` record or, where a claim depends on their behaviour, as definitions
marked `Modelled from the spec`.
-/

/-- Modelled from the spec: the `AuthType` string enum of
`airweave.platform.auth.schemas` (the schemas module is not in src; the members
are exactly the ones referenced by `settings.py` and `context.py`, and every
member of this str enum equals its tag string, which is the string used by the
catalog file format of section 6 and by scenarios A and B). -/
inductive AuthType where
  | oauth2
  | trello_auth
  | api_key
  | oauth2_with_refresh
  | oauth2_with_refresh_rotating
  | native_functionality
  | config_class
  | sigv4
  | none
deriving DecidableEq

/-- Tag string of each `AuthType` member (a str enum member equals its value). -/
def authTypeStr : AuthType → String
  | .oauth2 => "oauth2"
  | .trello_auth => "trello_auth"
  | .api_key => "api_key"
  | .oauth2_with_refresh => "oauth2_with_refresh"
  | .oauth2_with_refresh_rotating => "oauth2_with_refresh_rotating"
  | .native_functionality => "native_functionality"
  | .config_class => "config_class"
  | .sigv4 => "sigv4"
  | .none => "none"

/-- Membership test of a string among the `AuthType` tag values: the Python
dict lookup `mapping.get(auth_type)` first has to match the string key against
an enum member (str enum members compare equal to their values). -/
def strToAuthType : String → Option AuthType
  | "oauth2" => some AuthType.oauth2
  | "trello_auth" => some AuthType.trello_auth
  | "api_key" => some AuthType.api_key
  | "oauth2_with_refresh" => some AuthType.oauth2_with_refresh
  | "oauth2_with_refresh_rotating" => some AuthType.oauth2_with_refresh_rotating
  | "native_functionality" => some AuthType.native_functionality
  | "config_class" => some AuthType.config_class
  | "sigv4" => some AuthType.sigv4
  | "none" => some AuthType.none
  | _ => Option.none

/-- The settings model classes named in `settings.py` (their pydantic bodies
live in the schemas module outside src; for the catalog claims only their
identity matters). -/
inductive SettingsModel where
  | OAuth2Settings
  | TrelloAuthSettings
  | APIKeyAuthSettings
  | OAuth2WithRefreshSettings
  | OAuth2WithRefreshRotatingSettings
  | NativeFunctionalityAuthSettings
  | ConfigClassAuthSettings
  | SigV4Settings
deriving DecidableEq

/-- The `mapping` dict of `IntegrationSettings._parse_integration`
(settings.py lines 58-68).  Note the source maps `AuthType.none` to `None`,
exactly as `Option.none` here. -/
def mapping : AuthType → Option SettingsModel
  | .oauth2 => some SettingsModel.OAuth2Settings
  | .trello_auth => some SettingsModel.TrelloAuthSettings
  | .api_key => some SettingsModel.APIKeyAuthSettings
  | .oauth2_with_refresh => some SettingsModel.OAuth2WithRefreshSettings
  | .oauth2_with_refresh_rotating => some SettingsModel.OAuth2WithRefreshRotatingSettings
  | .native_functionality => some SettingsModel.NativeFunctionalityAuthSettings
  | .config_class => some SettingsModel.ConfigClassAuthSettings
  | .sigv4 => some SettingsModel.SigV4Settings
  | .none => Option.none

/-- One catalog entry body: the `config` dict of an integration in the YAML
document.  `auth_type` is the strategy tag (`config.get("auth_type", "")`
yields `""` when absent); the remaining keys are kept as an opaque field list.
The pydantic field validation of the settings classes (which live outside src)
is not modelled: no claim depends on it. -/
structure IntegrationConfig where
  auth_type : Option String
  fields : List (String × String)
deriving DecidableEq

/-- The parsed settings object stored in the catalog (`BaseAuthSettings`
subclass instance): `model(**config)` with `integration_short_name` injected. -/
structure BaseAuthSettings where
  integration_short_name : String
  model : SettingsModel
  auth_type : AuthType
  fields : List (String × String)
deriving DecidableEq

/-- Errors raised by the catalog component. -/
inductive CatalogError where
  /-- `ValueError` of `_parse_integration`: unsupported auth_type, carrying the
  integration name and the offending tag. -/
  | unsupportedAuthType (integration : String) (tag : String)
  /-- `KeyError` of `get_by_short_name`. -/
  | keyErrorIntegration (short_name : String)
deriving DecidableEq

/-- Message rendering of the catalog errors, following the f-strings of the
source. -/
def CatalogError.message : CatalogError → String
  | .unsupportedAuthType integration tag =>
      "Unsupported auth_type for integration " ++ integration ++ ": " ++ tag
  | .keyErrorIntegration short_name =>
      "Integration settings not found for " ++ short_name

/-- Python dict assignment `d[k] = v`: replace in place when the key exists
(Python dicts keep the original insertion position), append otherwise. -/
def dictInsert {α β : Type} [DecidableEq α] (k : α) (v : β) :
    List (α × β) → List (α × β)
  | [] => [(k, v)]
  | (k', v') :: rest =>
      if k' = k then (k, v) :: rest else (k', v') :: dictInsert k v rest

/-- Python dict lookup `d.get(k)`. -/
def dictLookup {α β : Type} [DecidableEq α] (k : α) :
    List (α × β) → Option β
  | [] => Option.none
  | (k', v') :: rest => if k' = k then some v' else dictLookup k rest

/-- The catalog state `self._settings`: a dict from integration short name to
its parsed settings. -/
abbrev Catalog := List (String × BaseAuthSettings)

/-- `IntegrationSettings._parse_integration` (settings.py lines 40-74):
`auth_type = config.get("auth_type", "")`; `model = mapping.get(auth_type)`;
when a model class is found it is constructed over the config (with
`integration_short_name` set to the entry name), otherwise
`ValueError("Unsupported auth_type for integration ...")` is raised.  An
unknown tag and the tag `"none"` (mapped to `None`) both take the error
branch, since `if model:` is false for `None`. -/
def _parse_integration (name : String) (config : IntegrationConfig) :
    Except CatalogError BaseAuthSettings :=
  match strToAuthType (config.auth_type.getD ("")),
      (strToAuthType (config.auth_type.getD (""))).bind mapping with
  | some t, some m =>
      Except.ok { integration_short_name := name, model := m, auth_type := t,
                  fields := config.fields }
  | _, _ =>
      Except.error
        (CatalogError.unsupportedAuthType name (config.auth_type.getD ("")))

/-- `IntegrationSettings.load_settings` (settings.py lines 76-87), composed
with the YAML reading: the document is taken as the ordered list of
`integrations` entries of the YAML text.  `yaml.safe_load` builds a dict from
the text (a duplicated key silently keeps the last occurrence) and the loop
`self._settings[name] = self._parse_integration(name, config)` assigns each
entry into the existing settings dict; both steps are last-write-wins, which
the fold over `dictInsert` reproduces.  A `ValueError` from parsing propagates
out of the loop. -/
def load_settings (init : Catalog) :
    List (String × IntegrationConfig) → Except CatalogError Catalog
  | [] => Except.ok init
  | (name, config) :: rest =>
      match _parse_integration name config with
      | Except.error e => Except.error e
      | Except.ok s => load_settings (dictInsert name s init) rest

/-- `IntegrationSettings.get_by_short_name` (settings.py lines 89-109):
`self._settings.get(short_name)`; a missing entry raises
`KeyError("Integration settings not found for ...")`.  A stored
`BaseAuthSettings` instance is always truthy, so `if not settings` only fires
on `None`. -/
def get_by_short_name (catalog : Catalog) (short_name : String) :
    Except CatalogError BaseAuthSettings :=
  match dictLookup short_name catalog with
  | Option.none => Except.error (CatalogError.keyErrorIntegration short_name)
  | some s => Except.ok s

/-- `schemas.Connection` as used by the factory: id, integration short name and
the optional credential reference. -/
structure Connection where
  id : Nat
  short_name : String
  integration_credential_id : Option Nat
deriving DecidableEq

/-- `schemas.Source` (the `source_model` record from
`crud.source.get_by_short_name`): identity of the connector class plus the
declared auth type and optional auth-config class name. -/
structure SourceModel where
  short_name : String
  class_name : String
  auth_type : AuthType
  auth_config_class : Option String
deriving DecidableEq

/-- `schemas.IntegrationCredential`: the encrypted payload. -/
structure IntegrationCredential where
  encrypted_credentials : String
deriving DecidableEq

/-- `schemas.Sync`, restricted to the fields the factory reads. -/
structure Sync where
  id : Nat
  source_connection_id : Nat
  embedding_model_connection_id : Option Nat
  destination_connection_id : Option Nat
deriving DecidableEq

/-- `schemas.SyncJob`, restricted to the id the factory reads. -/
structure SyncJob where
  id : Nat
deriving DecidableEq

/-- `schemas.User`: the acting principal.  All CRUD lookups of the factory are
principal-scoped; the lookup functions of `Env` are taken as the views already
scoped to the acting principal (an out-of-scope record behaves as absent). -/
structure User where
  id : Nat
deriving DecidableEq

/-- `schemas.WhiteLabel`, opaque for the factory. -/
structure WhiteLabel where
  id : Nat
deriving DecidableEq

/-- Response of the OAuth token-refresh service. -/
structure OAuth2Response where
  access_token : String
  refresh_token : Option String
deriving DecidableEq

/-- Modelled from the spec: an auth-config class of
`airweave.platform.configs` (module outside src).  The spec only constrains
its credential schema: the set of required field names
("decrypted payload missing a field required by the target schema"). -/
structure AuthConfigClass where
  class_name : String
  required_fields : List String
deriving DecidableEq

/-- `schemas.Transformer`, restricted to the fields the locator reads. -/
structure Transformer where
  module_name : String
  method_name : String
deriving DecidableEq

/-- A resolved connector class (`resource_locator.get_source` result):
identified by the module short name and the class name. -/
structure SourceClass where
  short_name : String
  class_name : String
deriving DecidableEq

/-- The credential argument handed to `source_class.create`: none for the
`none` auth type, a bare access token for the OAuth paths, a validated
structured credential for the auth-config path. -/
inductive CredArg where
  | noArg
  | token (access_token : String)
  | structured (class_name : String) (fields : List (String × String))
deriving DecidableEq

/-- A constructed source instance: which class was constructed, with which
credential argument. -/
structure SourceInstance where
  cls : SourceClass
  cred : CredArg
deriving DecidableEq

/-- A resolved transformer callable, identified by module and method name. -/
abbrev TransformerFn := String × String

/-- The embedding-model instances the factory can construct
(`LocalText2Vec` is the only one appearing in `_get_embedding_model`). -/
inductive EmbeddingModelInstance where
  | localText2Vec
deriving DecidableEq

/-- The destination instances the factory can construct
(`WeaviateDestination.create(sync.id, embedding_model)` is the only
construction appearing in `_create_destination_instance`). -/
inductive DestinationInstance where
  | weaviate (sync_id : Nat) (embedding_model : EmbeddingModelInstance)
deriving DecidableEq

/-- `DagNode` of `app/schemas/dag.py` (audit fields such as organization and
author emails are omitted; no claim reads them). -/
structure DagNode where
  id : Nat
  type : String
  name : String
  config : Option (List (String × String))
  connection_id : Option Nat
  entity_definition_id : Option Nat
deriving DecidableEq

/-- `DagEdge` of `app/schemas/dag.py`. -/
structure DagEdge where
  id : Nat
  from_node_id : Nat
  to_node_id : Nat
deriving DecidableEq

/-- `SyncDagDefinition` of `app/schemas/dag.py` (lines 106-118): a plain data
record of nodes and edges; the class declares no structural validator. -/
structure SyncDagDefinition where
  id : Nat
  name : String
  sync_id : Nat
  nodes : List DagNode
  edges : List DagEdge
deriving DecidableEq

/-- `SyncProgress(sync_job.id)`: the progress sink bound to the job id (its
publish interface is out of scope; only the construction is modelled). -/
structure SyncProgress where
  sync_job_id : Nat
deriving DecidableEq

/-- `SyncDAGRouter(dag)`: the router over the DAG as handed to it (the router
module is outside src; `create` never reaches its construction, see
`SyncContextFactory.create`). -/
structure SyncDAGRouter where
  dag : SyncDagDefinition
deriving DecidableEq

/-- Errors of the factory, by the Python exception class raised. -/
inductive SyncError where
  /-- `NotFoundException(msg)` -/
  | notFound (msg : String)
  /-- `ValueError(msg)` -/
  | valueError (msg : String)
  /-- `KeyError` from a dict subscript on a missing key. -/
  | keyError (key : String)
  /-- pydantic `ValidationError` naming a missing required field. -/
  | validationError (missing_field : String)
  /-- `ModuleNotFoundError` / `AttributeError` from a locator lookup. -/
  | resolutionError (name : String)
  /-- `AttributeError` from reading an undefined attribute. -/
  | attributeError (attr : String)
  /-- failure of the token-refresh endpoint. -/
  | refreshError (msg : String)
deriving DecidableEq

/-- The credential store view: credential id to stored credential. -/
abbrev CredStore := Nat → Option IntegrationCredential

/-- The external collaborators of the factory, principal-scoped where the CRUD
layer is principal-scoped: connection lookup, source lookup by short name, the
credential store, the decryption collaborator (a pure function from ciphertext
to named fields), the per-integration token-refresh endpoint (short name and
refresh token to response), the two config modules of the locator, the source
and transformer modules, and the registered transformers. -/
structure Env where
  connections : Nat → Option Connection
  sources : String → Option SourceModel
  credentials_store : CredStore
  decrypt : String → List (String × String)
  refreshEndpoint : String → String → Except SyncError OAuth2Response
  authModule : String → Option AuthConfigClass
  sigv4Module : String → Option AuthConfigClass
  hasSourceClass : String → String → Bool
  hasTransformer : String → String → Bool
  transformers_all : List Transformer

/-- The assembled `SyncContext` aggregate (context.py lines 22-73). -/
structure SyncContext where
  source : SourceInstance
  destination : DestinationInstance
  embedding_model : EmbeddingModelInstance
  transformers : List (String × TransformerFn)
  sync : Sync
  sync_job : SyncJob
  dag : SyncDagDefinition
  progress : SyncProgress
  router : SyncDAGRouter
  white_label : Option WhiteLabel
deriving DecidableEq

/-- `ResourceLocator.get_source` (locator.py lines 41-52): import the module
named by the source's short name and read the class named by `class_name`; a
missing module or attribute raises, modelled as a resolution error. -/
def get_source (env : Env) (source_model : SourceModel) :
    Except SyncError SourceClass :=
  if env.hasSourceClass source_model.short_name source_model.class_name then
    Except.ok { short_name := source_model.short_name,
                class_name := source_model.class_name }
  else
    Except.error (SyncError.resolutionError source_model.class_name)

/-- `ResourceLocator.get_auth_config` (locator.py lines 67-92): match on the
optional `auth_type`; the `sigv4` case reads the class from the sigv4 configs
module, the `config_class` case and the default case both read it from the
generic auth configs module.  `auth_type` defaults to `None` in the source
signature; callers that pass no second argument are embedded as passing
`Option.none`. -/
def get_auth_config (env : Env) (auth_config_class : String)
    (auth_type : Option AuthType) : Except SyncError AuthConfigClass :=
  match auth_type with
  | some AuthType.sigv4 =>
      match env.sigv4Module auth_config_class with
      | some cls => Except.ok cls
      | Option.none => Except.error (SyncError.resolutionError auth_config_class)
  | some AuthType.config_class =>
      match env.authModule auth_config_class with
      | some cls => Except.ok cls
      | Option.none => Except.error (SyncError.resolutionError auth_config_class)
  | _ =>
      match env.authModule auth_config_class with
      | some cls => Except.ok cls
      | Option.none => Except.error (SyncError.resolutionError auth_config_class)

/-- `ResourceLocator.get_transformer` (locator.py lines 94-105). -/
def get_transformer (env : Env) (t : Transformer) :
    Except SyncError TransformerFn :=
  if env.hasTransformer t.module_name t.method_name then
    Except.ok (t.module_name, t.method_name)
  else
    Except.error (SyncError.resolutionError t.method_name)

/-- Modelled from the spec: pydantic `model_validate` of an auth-config class
(the classes under `airweave.platform.configs` are outside src).  Spec 4.3:
a decrypted payload missing a field required by the target schema fails with
`ValidationError` naming the field; otherwise the validated structured
credential is produced. -/
def model_validate (cls : AuthConfigClass) (payload : List (String × String)) :
    Except SyncError CredArg :=
  match cls.required_fields.find? (fun f => (dictLookup f payload).isNone) with
  | some f => Except.error (SyncError.validationError f)
  | Option.none => Except.ok (CredArg.structured cls.class_name payload)

/-- Modelled from the spec: `oauth2_service.refresh_access_token` of
`app.platform.auth.services` (module outside src).  For the
`oauth2_with_refresh` strategy, spec 4.3 row 4: look up the connection and its
stored credential, decrypt it, call the integration's token-refresh endpoint
with the stored refresh token, and return the endpoint's response together
with the credential store after the call; the same refresh token is reused
afterwards, so the store is returned unchanged.  (The rotating variant, which
would persist a new refresh token, is not modelled; no claim exercises it.) -/
def refresh_access_token (env : Env) (short_name : String)
    (connection_id : Nat) : Except SyncError (OAuth2Response × CredStore) :=
  match env.connections connection_id with
  | Option.none => Except.error (SyncError.notFound ("connection"))
  | some conn =>
      match conn.integration_credential_id with
      | Option.none => Except.error (SyncError.notFound ("credential"))
      | some cid =>
          match env.credentials_store cid with
          | Option.none => Except.error (SyncError.notFound ("credential"))
          | some cred =>
              match dictLookup ("refresh_token")
                  (env.decrypt cred.encrypted_credentials) with
              | Option.none => Except.error (SyncError.notFound ("credential"))
              | some refresh_token =>
                  match env.refreshEndpoint short_name refresh_token with
                  | Except.error e => Except.error e
                  | Except.ok resp => Except.ok (resp, env.credentials_store)

/-- `SyncContextFactory._get_integration_credential` (context.py lines
204-217): `crud.integration_credential.get` on the connection's credential id;
a missing record raises `NotFoundException`. -/
def _get_integration_credential (env : Env) (source_connection : Connection) :
    Except SyncError IntegrationCredential :=
  match source_connection.integration_credential_id with
  | Option.none =>
      Except.error (SyncError.notFound ("Source integration credential not found"))
  | some cid =>
      match env.credentials_store cid with
      | Option.none =>
          Except.error
            (SyncError.notFound ("Source integration credential not found"))
      | some cred => Except.ok cred

/-- `SyncContextFactory._create_oauth2_with_refresh_source` (context.py lines
150-163): call the refresh service with the integration short name and the
connection id, then construct the source with the response's access token.
The credential store after the service call is returned alongside. -/
def _create_oauth2_with_refresh_source (env : Env) (source_model : SourceModel)
    (source_class : SourceClass) (source_connection : Connection) :
    Except SyncError (SourceInstance × CredStore) :=
  match refresh_access_token env source_model.short_name
      source_connection.id with
  | Except.error e => Except.error e
  | Except.ok (oauth2_response, store) =>
      Except.ok ({ cls := source_class,
                   cred := CredArg.token oauth2_response.access_token }, store)

/-- `SyncContextFactory._create_oauth2_source` (context.py lines 165-179):
a connection with no credential reference raises `NotFoundException`;
otherwise the stored credential is fetched and decrypted and the source is
constructed with `decrypted_credential["access_token"]` (a plain dict
subscript: a missing key raises `KeyError`).  No refresh call is made. -/
def _create_oauth2_source (env : Env) (source_class : SourceClass)
    (source_connection : Connection) : Except SyncError SourceInstance :=
  match source_connection.integration_credential_id with
  | Option.none =>
      Except.error
        (SyncError.notFound ("Source connection has no integration credential"))
  | some _ =>
      match _get_integration_credential env source_connection with
      | Except.error e => Except.error e
      | Except.ok credential =>
          match dictLookup ("access_token")
              (env.decrypt credential.encrypted_credentials) with
          | Option.none => Except.error (SyncError.keyError ("access_token"))
          | some access_token =>
              Except.ok { cls := source_class,
                          cred := CredArg.token access_token }

/-- `SyncContextFactory._create_other_auth_source` (context.py lines 181-202):
credential fetched and decrypted; a source model with no `auth_config_class`
raises `ValueError`; otherwise the auth-config class is resolved via
`resource_locator.get_auth_config(source_model.auth_config_class)` (one
argument: `auth_type` keeps its `None` default) and the decrypted payload is
validated against it via `model_validate`. -/
def _create_other_auth_source (env : Env) (source_model : SourceModel)
    (source_class : SourceClass) (source_connection : Connection) :
    Except SyncError SourceInstance :=
  match source_connection.integration_credential_id with
  | Option.none =>
      Except.error
        (SyncError.notFound ("Source connection has no integration credential"))
  | some _ =>
      match _get_integration_credential env source_connection with
      | Except.error e => Except.error e
      | Except.ok credential =>
          match source_model.auth_config_class with
          | Option.none =>
              Except.error
                (SyncError.valueError
                  ("Auth config class required for auth type " ++
                    authTypeStr source_model.auth_type))
          | some acc =>
              match get_auth_config env acc Option.none with
              | Except.error e => Except.error e
              | Except.ok auth_config =>
                  match model_validate auth_config
                      (env.decrypt credential.encrypted_credentials) with
                  | Except.error e => Except.error e
                  | Except.ok source_credentials =>
                      Except.ok { cls := source_class,
                                  cred := source_credentials }

/-- `SyncContextFactory._create_source_instance` (context.py lines 112-148):
look up the source connection and the source model, resolve the connector
class, then dispatch on the declared auth type: `none` constructs with no
credential argument; the two refresh variants go through the refresh service;
`oauth2` uses the stored access token; everything else goes through the
auth-config path.  The credential store after the step is paired with the
result (only the refresh path can touch it). -/
def _create_source_instance (env : Env) (sync : Sync) :
    Except SyncError (SourceInstance × CredStore) :=
  match env.connections sync.source_connection_id with
  | Option.none => Except.error (SyncError.notFound ("Source connection not found"))
  | some source_connection =>
      match env.sources source_connection.short_name with
      | Option.none => Except.error (SyncError.notFound ("Source not found"))
      | some source_model =>
          match get_source env source_model with
          | Except.error e => Except.error e
          | Except.ok source_class =>
              if source_model.auth_type = AuthType.none then
                Except.ok ({ cls := source_class, cred := CredArg.noArg },
                           env.credentials_store)
              else if source_model.auth_type = AuthType.oauth2_with_refresh ∨
                  source_model.auth_type =
                    AuthType.oauth2_with_refresh_rotating then
                _create_oauth2_with_refresh_source env source_model
                  source_class source_connection
              else if source_model.auth_type = AuthType.oauth2 then
                match _create_oauth2_source env source_class
                    source_connection with
                | Except.error e => Except.error e
                | Except.ok s => Except.ok (s, env.credentials_store)
              else
                match _create_other_auth_source env source_model source_class
                    source_connection with
                | Except.error e => Except.error e
                | Except.ok s => Except.ok (s, env.credentials_store)

/-- `SyncContextFactory._get_embedding_model` (context.py lines 219-224): both
branches construct `LocalText2Vec` (the second carries the TODO about other
embedding models). -/
def _get_embedding_model (sync : Sync) : EmbeddingModelInstance :=
  if sync.embedding_model_connection_id.isNone then
    EmbeddingModelInstance.localText2Vec
  else
    EmbeddingModelInstance.localText2Vec

/-- `SyncContextFactory._create_destination_instance` (context.py lines
226-235): both branches construct `WeaviateDestination.create(sync.id,
embedding_model)` (the second carries the TODO about other destinations). -/
def _create_destination_instance (sync : Sync)
    (embedding_model : EmbeddingModelInstance) :
    Except SyncError DestinationInstance :=
  if sync.destination_connection_id.isNone then
    Except.ok (DestinationInstance.weaviate sync.id embedding_model)
  else
    Except.ok (DestinationInstance.weaviate sync.id embedding_model)

/-- The loop body of `_get_transformer_callables`:
`transformers[transformer.method_name] = resource_locator.get_transformer(...)`
over the registered transformers. -/
def transformerLoop (env : Env) :
    List Transformer → List (String × TransformerFn) →
    Except SyncError (List (String × TransformerFn))
  | [], acc => Except.ok acc
  | t :: rest, acc =>
      match get_transformer env t with
      | Except.error e => Except.error e
      | Except.ok fn => transformerLoop env rest (dictInsert t.method_name fn acc)

/-- `SyncContextFactory._get_transformer_callables` (context.py lines
237-247): resolve every registered transformer into a method-name keyed dict
(the `sync` argument is taken but unused, as in the source). -/
def _get_transformer_callables (env : Env) (sync : Sync) :
    Except SyncError (List (String × TransformerFn)) :=
  transformerLoop env env.transformers_all []

/-- `SyncContextFactory.create` (context.py lines 79-110): source instance,
embedding model, destination, transformer map, then
`entity_map = await cls._get_entity_map(db, sync)`.  The class defines no
method `_get_entity_map` (only `_get_entity_definition_map`), so the attribute
access raises `AttributeError` there, before the progress sink and the DAG
router are constructed.  No DAG validation appears anywhere in the method. -/
def create (env : Env) (sync : Sync) (sync_job : SyncJob)
    (dag : SyncDagDefinition) (white_label : Option WhiteLabel) :
    Except SyncError SyncContext :=
  match _create_source_instance env sync with
  | Except.error e => Except.error e
  | Except.ok (source, _store) =>
      match _create_destination_instance sync (_get_embedding_model sync) with
      | Except.error e => Except.error e
      | Except.ok destination =>
          match _get_transformer_callables env sync with
          | Except.error e => Except.error e
          | Except.ok transformers =>
              match (Except.error (SyncError.attributeError ("_get_entity_map")) :
                  Except SyncError (List (Nat × String))) with
              | Except.error e => Except.error e
              | Except.ok _entity_map =>
                  Except.ok { source := source, destination := destination,
                              embedding_model := _get_embedding_model sync,
                              transformers := transformers, sync := sync,
                              sync_job := sync_job, dag := dag,
                              progress := { sync_job_id := sync_job.id },
                              router := { dag := dag },
                              white_label := white_label }

/-- Written from the spec (section 4.5), not from the source: no duplicate
among a list of node ids. -/
def natNodup : List Nat → Bool
  | [] => true
  | x :: xs => !(xs.contains x) && natNodup xs

/-- Written from the spec (section 4.5): the node ids of a DAG definition. -/
def nodeIds (dag : SyncDagDefinition) : List Nat :=
  dag.nodes.map (fun n => n.id)

/-- Written from the spec (section 4.5): every edge endpoint resolves to a
node of the same definition. -/
def edgeEndpointsResolve (dag : SyncDagDefinition) : Bool :=
  dag.edges.all (fun e =>
    (nodeIds dag).contains e.from_node_id &&
    (nodeIds dag).contains e.to_node_id)

/-- Written from the spec (section 4.5): the type/reference constraint of one
node: source and destination nodes carry a connection id, entity nodes an
entity definition id, transformer nodes a config and neither id. -/
def nodeTypeRefsOk (n : DagNode) : Bool :=
  if n.type = "source" ∨ n.type = "destination" then
    n.connection_id.isSome && n.entity_definition_id.isNone
  else if n.type = "entity" then
    n.entity_definition_id.isSome && n.connection_id.isNone
  else if n.type = "transformer" then
    n.config.isSome && n.connection_id.isNone && n.entity_definition_id.isNone
  else false

/-- Written from the spec (section 4.5): acyclicity by repeatedly removing a
node with no incoming edge from a remaining node (Kahn), with fuel. -/
def dagAcyclicAux (edges : List DagEdge) : Nat → List Nat → Bool
  | 0, remaining => remaining.isEmpty
  | fuel + 1, remaining =>
      if remaining.isEmpty then true
      else
        match remaining.find? (fun n =>
            !(edges.any (fun e =>
              remaining.contains e.from_node_id && e.to_node_id = n))) with
        | Option.none => false
        | some n => dagAcyclicAux edges fuel (remaining.erase n)

/-- Written from the spec (section 4.5): the edge set is acyclic. -/
def dagAcyclic (dag : SyncDagDefinition) : Bool :=
  dagAcyclicAux dag.edges dag.nodes.length (nodeIds dag)

/-- Written from the spec (section 4.5), not from the source: the structural
validity contract of the Pipeline Graph Model (node-id uniqueness, edge
endpoints resolving, per-type reference fields, acyclicity; the no-orphan
reachability clause is not needed to exhibit the concrete valid and invalid
DAGs below and is left out).  The source (`app/schemas/dag.py` and
`SyncContextFactory.create`) defines no validation to compare it against:
this definition only classifies concrete test DAGs. -/
def specDagStructurallyValid (dag : SyncDagDefinition) : Bool :=
  natNodup (nodeIds dag) && edgeEndpointsResolve dag &&
  dag.nodes.all nodeTypeRefsOk && dagAcyclic dag

/-- Boolean success test of a factory result. -/
def exceptOk {ε α : Type} : Except ε α → Bool
  | Except.ok _ => true
  | Except.error _ => false

/-- Concrete fixture: connection of a no-auth integration (scenario B). -/
def connNone : Connection :=
  { id := 1, short_name := "local_files", integration_credential_id := Option.none }

/-- Concrete fixture: connection of the hubspot integration (scenario A). -/
def connHub : Connection :=
  { id := 2, short_name := "hubspot", integration_credential_id := some 20 }

/-- Concrete fixture: connection of a plain oauth2 integration. -/
def connOauth : Connection :=
  { id := 3, short_name := "asana", integration_credential_id := some 30 }

/-- Concrete fixture: connection of a config-class integration. -/
def connCfg : Connection :=
  { id := 4, short_name := "stripe", integration_credential_id := some 40 }

/-- Concrete fixture: connection whose decrypted credential lacks the fields
required by its schema. -/
def connNoTok : Connection :=
  { id := 5, short_name := "asana", integration_credential_id := some 50 }

/-- Concrete fixture: source model of the no-auth integration. -/
def smNone : SourceModel :=
  { short_name := "local_files", class_name := "LocalFilesSource",
    auth_type := AuthType.none, auth_config_class := Option.none }

/-- Concrete fixture: source model of the hubspot integration (tag
`oauth2_with_refresh`, scenario A). -/
def smHub : SourceModel :=
  { short_name := "hubspot", class_name := "HubspotSource",
    auth_type := AuthType.oauth2_with_refresh, auth_config_class := Option.none }

/-- Concrete fixture: source model of a config-class integration. -/
def smCfg : SourceModel :=
  { short_name := "stripe", class_name := "StripeSource",
    auth_type := AuthType.config_class,
    auth_config_class := some "StripeAuthConfig" }

/-- Concrete fixture: a resolved connector class. -/
def scAsana : SourceClass :=
  { short_name := "asana", class_name := "AsanaSource" }

/-- Concrete fixture: a resolved connector class for hubspot. -/
def scHub : SourceClass :=
  { short_name := "hubspot", class_name := "HubspotSource" }

/-- Concrete fixture: a resolved connector class for stripe. -/
def scStripe : SourceClass :=
  { short_name := "stripe", class_name := "StripeSource" }

/-- Concrete fixture: the stored credentials, one ciphertext each. -/
def credHub : IntegrationCredential := { encrypted_credentials := "blobHub" }

/-- Concrete fixture: stored credential of the plain oauth2 connection. -/
def credOauth : IntegrationCredential := { encrypted_credentials := "blobOauth" }

/-- Concrete fixture: stored credential of the config-class connection. -/
def credCfg : IntegrationCredential := { encrypted_credentials := "blobCfg" }

/-- Concrete fixture: stored credential whose payload lacks required fields. -/
def credNoTok : IntegrationCredential := { encrypted_credentials := "blobNoTok" }

/-- Concrete fixture: the auth-config class of the stripe integration. -/
def accStripe : AuthConfigClass :=
  { class_name := "StripeAuthConfig", required_fields := ["api_key"] }

/-- Concrete fixture environment: five connections, four stored credentials,
a decryption table, a refresh endpoint answering only hubspot with the stored
refresh token, and one auth-config class in the generic configs module. -/
def envA : Env :=
  { connections := fun n =>
      if n = 1 then some connNone
      else if n = 2 then some connHub
      else if n = 3 then some connOauth
      else if n = 4 then some connCfg
      else if n = 5 then some connNoTok
      else Option.none,
    sources := fun s =>
      if s = "local_files" then some smNone
      else if s = "hubspot" then some smHub
      else if s = "stripe" then some smCfg
      else Option.none,
    credentials_store := fun n =>
      if n = 20 then some credHub
      else if n = 30 then some credOauth
      else if n = 40 then some credCfg
      else if n = 50 then some credNoTok
      else Option.none,
    decrypt := fun s =>
      if s = "blobHub" then [("refresh_token", "rt-hub")]
      else if s = "blobOauth" then [("access_token", "at-raw")]
      else if s = "blobCfg" then [("api_key", "k1")]
      else if s = "blobNoTok" then [("unrelated", "x")]
      else [],
    refreshEndpoint := fun sn rt =>
      if sn = "hubspot" ∧ rt = "rt-hub" then
        Except.ok { access_token := "at-fresh", refresh_token := Option.none }
      else Except.error (SyncError.refreshError ("endpoint failure")),
    authModule := fun c =>
      if c = "StripeAuthConfig" then some accStripe else Option.none,
    sigv4Module := fun _ => Option.none,
    hasSourceClass := fun _ _ => true,
    hasTransformer := fun _ _ => true,
    transformers_all := [] }

/-- Concrete fixture: a sync over the no-auth source connection. -/
def syncNone : Sync :=
  { id := 100, source_connection_id := 1,
    embedding_model_connection_id := Option.none,
    destination_connection_id := Option.none }

/-- Concrete fixture: a sync job. -/
def jobA : SyncJob := { id := 200 }

/-- Concrete fixture: the scenario-C DAG source to transformer to
destination, structurally valid. -/
def dagGoodC2 : SyncDagDefinition :=
  { id := 500, name := "scenario-c", sync_id := 100,
    nodes :=
      [ { id := 1, type := "source", name := "S", config := Option.none,
          connection_id := some 1, entity_definition_id := Option.none },
        { id := 2, type := "transformer", name := "T", config := some [],
          connection_id := Option.none, entity_definition_id := Option.none },
        { id := 3, type := "destination", name := "D", config := Option.none,
          connection_id := some 9, entity_definition_id := Option.none } ],
    edges :=
      [ { id := 10, from_node_id := 1, to_node_id := 2 },
        { id := 11, from_node_id := 2, to_node_id := 3 } ] }

/-- Concrete fixture: a DAG with a two-node directed cycle, structurally
invalid. -/
def dagBadC2 : SyncDagDefinition :=
  { id := 501, name := "cyclic", sync_id := 100,
    nodes :=
      [ { id := 1, type := "source", name := "S", config := Option.none,
          connection_id := some 1, entity_definition_id := Option.none },
        { id := 2, type := "transformer", name := "T", config := some [],
          connection_id := Option.none, entity_definition_id := Option.none } ],
    edges :=
      [ { id := 10, from_node_id := 1, to_node_id := 2 },
        { id := 11, from_node_id := 2, to_node_id := 1 } ] }

/-- Concrete fixture: a catalog entry body with tag api_key. -/
def cfgApiKey : IntegrationConfig := { auth_type := some ("api_key"), fields := [] }

/-- Concrete fixture: a catalog entry body with tag oauth2. -/
def cfgOauth2 : IntegrationConfig := { auth_type := some ("oauth2"), fields := [] }

/-- Concrete fixture: a catalog entry body with tag none (scenario B). -/
def cfgNone : IntegrationConfig := { auth_type := some ("none"), fields := [] }

/-- Concrete fixture: a catalog entry body with an unknown tag. -/
def cfgMagic : IntegrationConfig := { auth_type := some ("magic"), fields := [] }

/-- Concrete fixture: the hubspot catalog entry body (scenario A). -/
def cfgHubLoad : IntegrationConfig :=
  { auth_type := some ("oauth2_with_refresh"), fields := [] }

/-- Concrete fixture: parsed settings of the github oauth2 entry. -/
def basGithub : BaseAuthSettings :=
  { integration_short_name := "github", model := SettingsModel.OAuth2Settings,
    auth_type := AuthType.oauth2, fields := [] }

/-- Concrete fixture: parsed settings of the hubspot entry. -/
def basHub : BaseAuthSettings :=
  { integration_short_name := "hubspot",
    model := SettingsModel.OAuth2WithRefreshSettings,
    auth_type := AuthType.oauth2_with_refresh, fields := [] }

/-- Concrete fixture: parsed settings of the slack api_key entry. -/
def basSlack : BaseAuthSettings :=
  { integration_short_name := "slack", model := SettingsModel.APIKeyAuthSettings,
    auth_type := AuthType.api_key, fields := [] }

/-- Concrete fixture: a two-entry catalog document with distinct names. -/
def docTwo : List (String × IntegrationConfig) :=
  [("hubspot", cfgHubLoad), ("slack", cfgApiKey)]

/-- Concrete fixture: the catalog obtained by loading `docTwo`. -/
def catalogTwo : Catalog := [("hubspot", basHub), ("slack", basSlack)]

theorem dictLookup_insert_self {α β : Type} [DecidableEq α] (k : α) (v : β)
    (d : List (α × β)) : dictLookup k (dictInsert k v d) = some v := by
  induction d with
  | nil => simp [dictInsert, dictLookup]
  | cons hd tl ih =>
    obtain ⟨a, b⟩ := hd
    by_cases ha : a = k
    · simp [dictInsert, ha, dictLookup]
    · simp [dictInsert, ha, dictLookup, ih]

theorem dictLookup_insert_ne {α β : Type} [DecidableEq α] {k k' : α} (v : β)
    (d : List (α × β)) (h : k ≠ k') :
    dictLookup k' (dictInsert k v d) = dictLookup k' d := by
  induction d with
  | nil => simp [dictInsert, dictLookup, h]
  | cons hd tl ih =>
    obtain ⟨a, b⟩ := hd
    by_cases ha : a = k
    · subst ha
      simp [dictInsert, dictLookup, h, ih]
    · simp [dictInsert, ha, dictLookup, ih]

theorem dictInsert_lookup_eq {α β : Type} [DecidableEq α] {k : α} {v : β}
    {d : List (α × β)} (h : dictLookup k d = some v) :
    dictInsert k v d = d := by
  induction d with
  | nil => simp [dictLookup] at h
  | cons hd tl ih =>
    obtain ⟨a, b⟩ := hd
    by_cases ha : a = k
    · subst ha
      simp [dictLookup] at h
      simp [dictInsert, h]
    · simp [dictLookup, ha] at h
      simp [dictInsert, ha, ih h]

theorem parse_ok_tag {name : String} {config : IntegrationConfig}
    {s : BaseAuthSettings}
    (h : _parse_integration name config = Except.ok s) :
    strToAuthType (config.auth_type.getD ("")) = some s.auth_type := by
  unfold _parse_integration at h
  cases hs : strToAuthType (config.auth_type.getD ("")) with
  | none => rw [hs] at h; simp at h
  | some t =>
    rw [hs, Option.some_bind] at h
    cases hm : mapping t with
    | none => rw [hm] at h; simp at h
    | some m =>
      rw [hm] at h
      simp at h
      rw [← h]

theorem parse_error_of_bind_none {name : String} {config : IntegrationConfig}
    (h : (strToAuthType (config.auth_type.getD (""))).bind mapping =
      Option.none) :
    _parse_integration name config =
      Except.error
        (CatalogError.unsupportedAuthType name (config.auth_type.getD (""))) := by
  unfold _parse_integration
  cases hs : strToAuthType (config.auth_type.getD ("")) with
  | none => simp [hs]
  | some t =>
    rw [hs, Option.some_bind] at h
    simp [hs, h]

theorem parse_error_shape {name : String} {config : IntegrationConfig}
    {e : CatalogError}
    (h : _parse_integration name config = Except.error e) :
    e = CatalogError.unsupportedAuthType name (config.auth_type.getD ("")) ∧
    (strToAuthType (config.auth_type.getD (""))).bind mapping =
      Option.none := by
  unfold _parse_integration at h
  cases hs : strToAuthType (config.auth_type.getD ("")) with
  | none =>
    rw [hs] at h
    simp at h
    exact ⟨h.symm, rfl⟩
  | some t =>
    rw [hs, Option.some_bind] at h
    cases hm : mapping t with
    | none =>
      rw [hm] at h
      simp at h
      exact ⟨h.symm, by rw [Option.some_bind, hm]⟩
    | some m =>
      rw [hm] at h
      simp at h

theorem load_settings_lookup_of_not_mem
    (doc : List (String × IntegrationConfig)) :
    ∀ (init c : Catalog) (name : String),
      name ∉ doc.map Prod.fst →
      load_settings init doc = Except.ok c →
      dictLookup name c = dictLookup name init := by
  induction doc with
  | nil =>
    intro init c name _ h
    simp [load_settings] at h
    rw [← h]
  | cons hd tl ih =>
    intro init c name hmem hload
    obtain ⟨n0, c0⟩ := hd
    simp only [List.map_cons, List.mem_cons] at hmem
    push_neg at hmem
    unfold load_settings at hload
    cases hp : _parse_integration n0 c0 with
    | error e => rw [hp] at hload; exact (Except.noConfusion hload)
    | ok s =>
      rw [hp] at hload
      rw [ih _ _ _ hmem.2 hload]
      exact dictLookup_insert_ne s _ (fun he => hmem.1 he.symm)

theorem load_settings_lookup (doc : List (String × IntegrationConfig)) :
    ∀ (init c : Catalog) (name : String) (config : IntegrationConfig),
      (doc.map Prod.fst).Nodup →
      load_settings init doc = Except.ok c →
      (name, config) ∈ doc →
      ∃ s, _parse_integration name config = Except.ok s ∧
        dictLookup name c = some s := by
  induction doc with
  | nil => intro _ _ _ _ _ _ hmem; cases hmem
  | cons hd tl ih =>
    intro init c name config hnd hload hmem
    obtain ⟨n0, c0⟩ := hd
    simp only [List.map_cons, List.nodup_cons] at hnd
    unfold load_settings at hload
    cases hp : _parse_integration n0 c0 with
    | error e => rw [hp] at hload; exact (Except.noConfusion hload)
    | ok s0 =>
      rw [hp] at hload
      rcases List.mem_cons.mp hmem with heq | hmem'
      · injection heq with hn hc
        subst hn
        subst hc
        refine ⟨s0, hp, ?_⟩
        rw [load_settings_lookup_of_not_mem tl _ _ _ hnd.1 hload]
        exact dictLookup_insert_self name s0 init
      · exact ih _ _ _ _ hnd.2 hload hmem'

theorem load_settings_fixpoint (doc : List (String × IntegrationConfig)) :
    ∀ (c : Catalog),
      (∀ name config, (name, config) ∈ doc →
        ∃ s, _parse_integration name config = Except.ok s ∧
          dictLookup name c = some s) →
      load_settings c doc = Except.ok c := by
  induction doc with
  | nil => intro c _; rfl
  | cons hd tl ih =>
    intro c hall
    obtain ⟨n0, c0⟩ := hd
    obtain ⟨s0, hp, hl⟩ := hall n0 c0 (List.mem_cons_self _ _)
    unfold load_settings
    rw [hp]
    show load_settings (dictInsert n0 s0 c) tl = Except.ok c
    rw [dictInsert_lookup_eq hl]
    exact ih c (fun name config hm => hall name config (List.mem_cons_of_mem _ hm))

/-- C1: the claim says a catalog entry with auth_type none loads and stores a
strategy.  The code rejects it: `_parse_integration` maps `AuthType.none` to
`None` and the falsy check raises the ValueError naming local_files and the
tag none (first two conjuncts, evaluating the load path of scenario B at the
failing input).  The connector half of the claim does hold: resolving a
source connection whose source model declares auth type none constructs the
connector class with no credential argument and an untouched credential
store (third conjunct). -/
theorem c1_none_auth_load_rejected_but_no_cred_connector :
    _parse_integration ("local_files") cfgNone =
      Except.error
        (CatalogError.unsupportedAuthType ("local_files") ("none")) ∧
    (CatalogError.unsupportedAuthType ("local_files") ("none")).message =
      "Unsupported auth_type for integration local_files: none" ∧
    _create_source_instance envA syncNone =
      Except.ok
        ({ cls := { short_name := "local_files",
                    class_name := "LocalFilesSource" },
           cred := CredArg.noArg }, envA.credentials_store) :=
  ⟨rfl, rfl, rfl⟩

/-- C3: the claim says a catalog document with two entries for the same
integration short name is rejected at load time.  The code instead loads it
successfully and the later entry silently overwrites the earlier one: loading
a document with a github api_key entry followed by a github oauth2 entry
yields a catalog holding exactly the oauth2 settings for github. -/
theorem c3_duplicate_short_name_last_write_wins :
    load_settings [] [("github", cfgApiKey), ("github", cfgOauth2)] =
      Except.ok [("github", basGithub)] :=
  rfl

/-- C8: embedding-model and destination construction each select a single
fixed implementation: `_get_embedding_model` is unchanged by any value of
`embedding_model_connection_id` and always yields LocalText2Vec, and
`_create_destination_instance` is unchanged by any value of
`destination_connection_id` and always constructs the Weaviate destination
from the sync id and the already constructed embedding model. -/
theorem c8_fixed_embedding_model_and_destination :
    ∀ (sync : Sync) (v w : Option Nat) (m : EmbeddingModelInstance),
      _get_embedding_model { sync with embedding_model_connection_id := v } =
        _get_embedding_model sync ∧
      _get_embedding_model sync = EmbeddingModelInstance.localText2Vec ∧
      _create_destination_instance
          { sync with destination_connection_id := w } m =
        _create_destination_instance sync m ∧
      _create_destination_instance sync m =
        Except.ok (DestinationInstance.weaviate sync.id m) := by
  intro sync v w m
  refine ⟨?_, ?_, ?_, ?_⟩ <;>
    simp [_get_embedding_model, _create_destination_instance]

/-- C2 (amended): `SyncContextFactory.create` performs no DAG validation.
Its result is identical for any two DAGs handed to it, and it never returns a
SyncContext: after resolving the transformer set it fails unconditionally
with the AttributeError on the undefined `_get_entity_map`, before the
progress sink or the DAG router would be constructed. -/
theorem c2_create_never_validates_dag_and_never_returns_context :
    ∀ (env : Env) (sync : Sync) (sync_job : SyncJob)
      (dag dag' : SyncDagDefinition) (wl : Option WhiteLabel),
      create env sync sync_job dag wl = create env sync sync_job dag' wl ∧
      exceptOk (create env sync sync_job dag wl) = false := by
  intro env sync sync_job dag dag' wl
  unfold create
  cases _create_source_instance env sync with
  | error e => exact ⟨rfl, rfl⟩
  | ok p =>
    obtain ⟨source, store⟩ := p
    cases _create_destination_instance sync (_get_embedding_model sync) with
    | error e => exact ⟨rfl, rfl⟩
    | ok d =>
      cases _get_transformer_callables env sync with
      | error e => exact ⟨rfl, rfl⟩
      | ok ts => exact ⟨rfl, rfl⟩

/-- C2 (counterexample to the claim as stated): over a fully working
environment, assembling with the structurally valid scenario-C DAG does not
produce a SyncContext but fails with the AttributeError on `_get_entity_map`,
and assembling with a structurally invalid (cyclic) DAG fails with exactly the
same error, not a graph-validation error: no DAG validation distinguishes the
two. -/
theorem c2_counterexample_valid_dag_yields_no_context :
    specDagStructurallyValid dagGoodC2 = true ∧
    specDagStructurallyValid dagBadC2 = false ∧
    create envA syncNone jobA dagGoodC2 Option.none =
      Except.error (SyncError.attributeError ("_get_entity_map")) ∧
    create envA syncNone jobA dagBadC2 Option.none =
      Except.error (SyncError.attributeError ("_get_entity_map")) :=
  ⟨by decide, by decide, rfl, rfl⟩

/-- C4: if some entry of a catalog document carries an auth_type tag that is
not a recognized strategy tag, then loading the document fails with the
ValueError whose payload names an offending integration of the document and
that integration's offending tag, and whose rendered message contains both. -/
theorem c4_unknown_tag_fails_load :
    ∀ (init : Catalog) (doc : List (String × IntegrationConfig))
      (name : String) (config : IntegrationConfig),
      (name, config) ∈ doc →
      strToAuthType (config.auth_type.getD ("")) = Option.none →
      ∃ n cfg, (n, cfg) ∈ doc ∧
        (strToAuthType (cfg.auth_type.getD (""))).bind mapping = Option.none ∧
        load_settings init doc =
          Except.error
            (CatalogError.unsupportedAuthType n (cfg.auth_type.getD (""))) ∧
        (CatalogError.unsupportedAuthType n (cfg.auth_type.getD (""))).message =
          "Unsupported auth_type for integration " ++ n ++ ": " ++
            cfg.auth_type.getD ("") := by
  intro init doc
  induction doc generalizing init with
  | nil => intro _ _ hmem; cases hmem
  | cons hd tl ih =>
    intro name config hmem hbad
    obtain ⟨n0, c0⟩ := hd
    cases hp : _parse_integration n0 c0 with
    | error e =>
      obtain ⟨he, hbind⟩ := parse_error_shape hp
      refine ⟨n0, c0, List.mem_cons_self _ _, hbind, ?_, rfl⟩
      unfold load_settings
      rw [hp, he]
    | ok s0 =>
      rcases List.mem_cons.mp hmem with heq | hmem'
      · injection heq with hn hc
        subst hn
        subst hc
        have := parse_ok_tag hp
        rw [hbad] at this
        cases this
      · obtain ⟨n, cfg, hm, hbind, hload, hmsg⟩ := ih _ _ _ hmem' hbad
        refine ⟨n, cfg, List.mem_cons_of_mem _ hm, hbind, ?_, hmsg⟩
        unfold load_settings
        rw [hp]
        exact hload

/-- C4 witness: the single-entry document with the unknown tag magic for
github satisfies the hypotheses, and loading it fails with the error naming
github and magic. -/
theorem c4_unknown_tag_fails_load_witness :
    ("github", cfgMagic) ∈ [("github", cfgMagic)] ∧
    strToAuthType (cfgMagic.auth_type.getD ("")) = Option.none ∧
    ∃ n cfg, (n, cfg) ∈ [("github", cfgMagic)] ∧
      (strToAuthType (cfg.auth_type.getD (""))).bind mapping = Option.none ∧
      load_settings [] [("github", cfgMagic)] =
        Except.error
          (CatalogError.unsupportedAuthType n (cfg.auth_type.getD (""))) ∧
      (CatalogError.unsupportedAuthType n (cfg.auth_type.getD (""))).message =
        "Unsupported auth_type for integration " ++ n ++ ": " ++
          cfg.auth_type.getD ("") :=
  ⟨List.mem_cons_self _ _, rfl,
    c4_unknown_tag_fails_load [] [(("github"), cfgMagic)] ("github") cfgMagic
      (List.mem_cons_self _ _) rfl⟩

/-- C9: for a catalog document with distinct integration names that loads
successfully, `get_by_short_name` on any documented name returns the stored
settings whose auth-type tag is exactly the tag written in that document
entry, and loading the unchanged document a second time into the resulting
catalog yields the same catalog. -/
theorem c9_catalog_get_matches_tag_and_load_idempotent :
    ∀ (doc : List (String × IntegrationConfig)) (c : Catalog)
      (name : String) (config : IntegrationConfig),
      (doc.map Prod.fst).Nodup →
      load_settings [] doc = Except.ok c →
      ((name, config) ∈ doc →
        ∃ s, get_by_short_name c name = Except.ok s ∧
          strToAuthType (config.auth_type.getD ("")) = some s.auth_type) ∧
      load_settings c doc = Except.ok c := by
  intro doc c name config hnd hload
  constructor
  · intro hmem
    obtain ⟨s, hp, hl⟩ :=
      load_settings_lookup doc [] c name config hnd hload hmem
    refine ⟨s, ?_, parse_ok_tag hp⟩
    unfold get_by_short_name
    rw [hl]
  · exact load_settings_fixpoint doc c
      (fun n cfg hm => load_settings_lookup doc [] c n cfg hnd hload hm)

/-- C9 witness: the two-entry document loads into `catalogTwo`; the hubspot
lookup returns the oauth2_with_refresh strategy matching the document tag,
and reloading the document into `catalogTwo` returns `catalogTwo`. -/
theorem c9_catalog_get_matches_tag_and_load_idempotent_witness :
    (docTwo.map Prod.fst).Nodup ∧
    load_settings [] docTwo = Except.ok catalogTwo ∧
    ((("hubspot", cfgHubLoad) ∈ docTwo →
      ∃ s, get_by_short_name catalogTwo ("hubspot") = Except.ok s ∧
        strToAuthType (cfgHubLoad.auth_type.getD ("")) = some s.auth_type) ∧
     load_settings catalogTwo docTwo = Except.ok catalogTwo) :=
  ⟨by decide, rfl,
    c9_catalog_get_matches_tag_and_load_idempotent docTwo catalogTwo
      ("hubspot") cfgHubLoad (by decide) rfl⟩

/-- Reduction shape of the locator with the auth_type argument left at its
None default: the class is read from the generic auth configs module. -/
theorem get_auth_config_none (env : Env) (c : String) :
    get_auth_config env c Option.none =
      (match env.authModule c with
       | some cls => Except.ok cls
       | Option.none => Except.error (SyncError.resolutionError c)) := rfl

/-- C5: for the oauth2 strategy, source creation decrypts the stored payload
and constructs the source with the raw stored access token (first conjunct);
it never consults the token-refresh endpoint, hence its result is invariant
under replacing that endpoint (second conjunct); and a source connection
without a credential reference fails with the NotFoundException identifying
the missing credential, constructing no source (third conjunct). -/
theorem c5_oauth2_raw_token_no_refresh :
    ∀ (env : Env) (sc : SourceClass) (conn : Connection) (cid : Nat)
      (cred : IntegrationCredential) (tok : String)
      (f : String → String → Except SyncError OAuth2Response),
      (conn.integration_credential_id = some cid →
        env.credentials_store cid = some cred →
        dictLookup ("access_token") (env.decrypt cred.encrypted_credentials) =
          some tok →
        _create_oauth2_source env sc conn =
          Except.ok { cls := sc, cred := CredArg.token tok }) ∧
      _create_oauth2_source { env with refreshEndpoint := f } sc conn =
        _create_oauth2_source env sc conn ∧
      (conn.integration_credential_id = Option.none →
        _create_oauth2_source env sc conn =
          Except.error
            (SyncError.notFound
              ("Source connection has no integration credential"))) := by
  intro env sc conn cid cred tok f
  refine ⟨?_, ?_, ?_⟩
  · intro h1 h2 h3
    simp [_create_oauth2_source, h1, _get_integration_credential, h2, h3]
  · cases env
    rfl
  · intro h
    simp [_create_oauth2_source, h]

/-- C5 witness: the asana connection with stored access token at-raw yields a
source constructed with that raw token, and the credential-less local_files
connection fails with the NotFoundException. -/
theorem c5_oauth2_raw_token_no_refresh_witness :
    connOauth.integration_credential_id = some 30 ∧
    envA.credentials_store 30 = some credOauth ∧
    dictLookup ("access_token") (envA.decrypt credOauth.encrypted_credentials) =
      some ("at-raw") ∧
    _create_oauth2_source envA scAsana connOauth =
      Except.ok { cls := scAsana, cred := CredArg.token ("at-raw") } ∧
    connNone.integration_credential_id = Option.none ∧
    _create_oauth2_source envA scAsana connNone =
      Except.error
        (SyncError.notFound
          ("Source connection has no integration credential")) :=
  ⟨rfl, rfl, rfl,
    (c5_oauth2_raw_token_no_refresh envA scAsana connOauth 30 credOauth
      ("at-raw") envA.refreshEndpoint).1 rfl rfl rfl,
    rfl,
    (c5_oauth2_raw_token_no_refresh envA scAsana connNone 30 credOauth
      ("at-raw") envA.refreshEndpoint).2.2 rfl⟩

/-- C6: for the oauth2_with_refresh strategy, resolving a source connection
whose stored credential decrypts to the refresh token rt constructs the
source with exactly the access token returned by the refresh endpoint called
on rt, and the credential store after the resolution is the unchanged input
store, so a later resolution reads the same stored refresh token. -/
theorem c6_refresh_token_reused_and_access_token_from_endpoint :
    ∀ (env : Env) (sm : SourceModel) (sc : SourceClass)
      (conn conn2 : Connection) (cid : Nat) (cred : IntegrationCredential)
      (rt : String) (resp : OAuth2Response),
      env.connections conn.id = some conn2 →
      conn2.integration_credential_id = some cid →
      env.credentials_store cid = some cred →
      dictLookup ("refresh_token") (env.decrypt cred.encrypted_credentials) =
        some rt →
      env.refreshEndpoint sm.short_name rt = Except.ok resp →
      _create_oauth2_with_refresh_source env sm sc conn =
        Except.ok ({ cls := sc, cred := CredArg.token resp.access_token },
                   env.credentials_store) := by
  intro env sm sc conn conn2 cid cred rt resp h1 h2 h3 h4 h5
  simp [_create_oauth2_with_refresh_source, refresh_access_token,
    h1, h2, h3, h4, h5]

/-- C6 witness: scenario A.  The hubspot connection with stored refresh token
rt-hub resolves to a source carrying the endpoint's at-fresh access token,
with the credential store unchanged. -/
theorem c6_refresh_token_reused_witness :
    envA.connections connHub.id = some connHub ∧
    connHub.integration_credential_id = some 20 ∧
    envA.credentials_store 20 = some credHub ∧
    dictLookup ("refresh_token") (envA.decrypt credHub.encrypted_credentials) =
      some ("rt-hub") ∧
    envA.refreshEndpoint smHub.short_name ("rt-hub") =
      Except.ok { access_token := "at-fresh", refresh_token := Option.none } ∧
    _create_oauth2_with_refresh_source envA smHub scHub connHub =
      Except.ok ({ cls := scHub, cred := CredArg.token ("at-fresh") },
                 envA.credentials_store) :=
  ⟨rfl, rfl, rfl, rfl, rfl,
    c6_refresh_token_reused_and_access_token_from_endpoint envA smHub scHub
      connHub connHub 20 credHub ("rt-hub")
      { access_token := "at-fresh", refresh_token := Option.none }
      rfl rfl rfl rfl rfl⟩

/-- C7 (counterexample to the claim as stated): under the oauth2 strategy, a
decrypted payload without access_token makes resolution fail with a KeyError
from the dict subscript, which is not a ValidationError naming the field. -/
theorem c7_counterexample_keyerror_not_validation :
    _create_oauth2_source envA scAsana connNoTok =
      Except.error (SyncError.keyError ("access_token")) ∧
    SyncError.keyError ("access_token") ≠
      SyncError.validationError ("access_token") :=
  ⟨rfl, by decide⟩

/-- C7 (amended): under the auth-config path, a decrypted payload missing a
field required by the declared credential schema fails with a
ValidationError naming a missing required field and no source is constructed
(first conjunct); under oauth2, a payload missing access_token fails with a
KeyError on the mapping lookup, not a ValidationError, and no source is
constructed (second conjunct). -/
theorem c7_missing_field_validation_vs_keyerror :
    ∀ (env : Env) (sm : SourceModel) (sc : SourceClass) (conn : Connection)
      (cid : Nat) (cred : IntegrationCredential) (acc : String)
      (accl : AuthConfigClass) (f : String),
      conn.integration_credential_id = some cid →
      env.credentials_store cid = some cred →
      sm.auth_config_class = some acc →
      env.authModule acc = some accl →
      f ∈ accl.required_fields →
      dictLookup f (env.decrypt cred.encrypted_credentials) = Option.none →
      (∃ g, g ∈ accl.required_fields ∧
        dictLookup g (env.decrypt cred.encrypted_credentials) = Option.none ∧
        _create_other_auth_source env sm sc conn =
          Except.error (SyncError.validationError g)) ∧
      (dictLookup ("access_token") (env.decrypt cred.encrypted_credentials) =
          Option.none →
        _create_oauth2_source env sc conn =
          Except.error (SyncError.keyError ("access_token"))) := by
  intro env sm sc conn cid cred acc accl f h1 h2 h3 h4 hf hlook
  constructor
  · have hex : (accl.required_fields.find? (fun x =>
        (dictLookup x (env.decrypt cred.encrypted_credentials)).isNone)).isSome := by
      rw [List.find?_isSome]
      exact ⟨f, hf, by simp [hlook]⟩
    obtain ⟨g, hgeq⟩ := Option.isSome_iff_exists.mp hex
    have hgmem := List.mem_of_find?_eq_some hgeq
    have hgnone : dictLookup g (env.decrypt cred.encrypted_credentials) =
        Option.none := by
      have := List.find?_some hgeq
      simpa using this
    refine ⟨g, hgmem, hgnone, ?_⟩
    simp [_create_other_auth_source, h1, _get_integration_credential, h2, h3,
      get_auth_config_none, h4, model_validate, hgeq]
  · intro hnk
    simp [_create_oauth2_source, h1, _get_integration_credential, h2, hnk]

/-- C7 witness: the stripe source model requires api_key; the connection
whose payload decrypts without it fails with the ValidationError naming
api_key, and the oauth2 path on the same payload fails with the KeyError. -/
theorem c7_missing_field_validation_witness :
    connNoTok.integration_credential_id = some 50 ∧
    envA.credentials_store 50 = some credNoTok ∧
    smCfg.auth_config_class = some ("StripeAuthConfig") ∧
    envA.authModule ("StripeAuthConfig") = some accStripe ∧
    ("api_key") ∈ accStripe.required_fields ∧
    dictLookup ("api_key") (envA.decrypt credNoTok.encrypted_credentials) =
      Option.none ∧
    ((∃ g, g ∈ accStripe.required_fields ∧
        dictLookup g (envA.decrypt credNoTok.encrypted_credentials) =
          Option.none ∧
        _create_other_auth_source envA smCfg scStripe connNoTok =
          Except.error (SyncError.validationError g)) ∧
      (dictLookup ("access_token")
          (envA.decrypt credNoTok.encrypted_credentials) = Option.none →
        _create_oauth2_source envA scStripe connNoTok =
          Except.error (SyncError.keyError ("access_token")))) :=
  ⟨rfl, rfl, rfl, rfl, by decide, rfl,
    c7_missing_field_validation_vs_keyerror envA smCfg scStripe connNoTok 50
      credNoTok ("StripeAuthConfig") accStripe ("api_key")
      rfl rfl rfl rfl (by decide) rfl⟩

/-- C10: with the auth_type argument omitted (its None default, as the
factory's call in `_create_other_auth_source` does for every non-OAuth
strategy), `get_auth_config` resolves the class from the generic auth configs
module and never consults the sigv4 module (first two conjuncts); for any
explicit auth_type other than sigv4 the sigv4 module is likewise irrelevant
(first conjunct, over all t); the sigv4 branch reads the sigv4 module, and
only an explicitly passed sigv4 reaches it (last two conjuncts). -/
theorem c10_auth_config_default_module :
    ∀ (env : Env) (f g : String → Option AuthConfigClass) (c : String)
      (sm : SourceModel) (sc : SourceClass) (conn : Connection)
      (t : Option AuthType),
      t ≠ some AuthType.sigv4 →
      get_auth_config { env with sigv4Module := f } c t =
        get_auth_config env c t ∧
      _create_other_auth_source { env with sigv4Module := f } sm sc conn =
        _create_other_auth_source env sm sc conn ∧
      get_auth_config { env with authModule := g } c (some AuthType.sigv4) =
        get_auth_config env c (some AuthType.sigv4) ∧
      get_auth_config env c (some AuthType.sigv4) =
        (match env.sigv4Module c with
         | some cls => Except.ok cls
         | Option.none => Except.error (SyncError.resolutionError c)) := by
  intro env f g c sm sc conn t ht
  refine ⟨?_, ?_, ?_, rfl⟩
  · cases t with
    | none =>
      cases env
      rfl
    | some a =>
      cases a <;> first
        | exact absurd rfl ht
        | (cases env; rfl)
  · cases env
    rfl
  · cases env
    rfl

/-- C10 witness: over the fixture environment, swapping the sigv4 module for
the generic one changes neither the defaulted locator call nor the factory's
auth-config resolution, while the explicit sigv4 call reads the sigv4 module
whatever the generic module holds. -/
theorem c10_auth_config_default_module_witness :
    (Option.none : Option AuthType) ≠ some AuthType.sigv4 ∧
    (get_auth_config { envA with sigv4Module := envA.authModule }
        ("StripeAuthConfig") Option.none =
      get_auth_config envA ("StripeAuthConfig") Option.none ∧
    _create_other_auth_source { envA with sigv4Module := envA.authModule }
        smCfg scStripe connCfg =
      _create_other_auth_source envA smCfg scStripe connCfg ∧
    get_auth_config { envA with authModule := envA.sigv4Module }
        ("StripeAuthConfig") (some AuthType.sigv4) =
      get_auth_config envA ("StripeAuthConfig") (some AuthType.sigv4) ∧
    get_auth_config envA ("StripeAuthConfig") (some AuthType.sigv4) =
      (match envA.sigv4Module ("StripeAuthConfig") with
       | some cls => Except.ok cls
       | Option.none =>
           Except.error (SyncError.resolutionError ("StripeAuthConfig")))) :=
  ⟨by decide,
    c10_auth_config_default_module envA envA.authModule envA.sigv4Module
      ("StripeAuthConfig") smCfg scStripe connCfg Option.none (by decide)⟩
